import Mathlib

/-!
Verification development for the Log-Pose terminal gateway server.

The definitions below are shallow embeddings of the TypeScript sources:
  * `src/server/src/utils/path-safety.ts` (path validation, symlink-escape check)
  * `src/server/src/services/repo.ts` (file service: readFile / writeFile)
  * `src/server/src/services/claude-session.ts` (PTY session manager)
  * `src/server/src/services/git.ts` / `worktree.ts` (branch-name validators)
  * `src/server/src/routes` (HTTP session route, terminal WebSocket handler)

JavaScript strings are modelled by Lean `String`; Node `path` (posix) functions
are re-implemented over `String.data`.  The filesystem is an explicit record
(`FS`) whose `realpathFn` field plays the role of `fs.realpath` (returning
`none` exactly on ENOENT).  Stateful services are modelled by explicit state
passing over a `Mgr` record; a thrown JS exception is an `Except.error`
carrying the thrown message, and mutations that survive a throw are kept by
returning the updated state alongside the `Except`.
-/

/-! ## Generic list and string helpers (JS semantics) -/

/-- Split a list of characters at every occurrence of `c` (like
`String.prototype.split`): the separators are dropped and empty pieces are
kept. -/
def splitOnCharL (c : Char) : List Char → List (List Char)
  | [] => [[]]
  | x :: xs =>
    match splitOnCharL c xs with
    | [] => if x = c then [[], []] else [[x]]
    | h :: t => if x = c then [] :: h :: t else (x :: h) :: t

/-- JS `String.prototype.includes` on character lists: `sub` occurs
contiguously inside `l`. -/
def containsSubL : List Char → List Char → Bool
  | l, sub =>
    match l with
    | [] => sub.isEmpty
    | _ :: t => sub.isPrefixOf l || containsSubL t sub

/-- JS `s.includes(sub)`. -/
def containsSubstr (s sub : String) : Bool :=
  containsSubL s.data sub.data

/-- JS `s.startsWith(pre)`. -/
def jsStartsWith (s pre : String) : Bool :=
  pre.data.isPrefixOf s.data

/-- JS `s.endsWith(suf)`. -/
def jsEndsWith (s suf : String) : Bool :=
  suf.data.isSuffixOf s.data

/-- Last index of character `c` in `l`, if any. -/
def lastIdxOf (c : Char) (l : List Char) : Option Nat :=
  match l.reverse.findIdx? (· = c) with
  | some j => some (l.length - 1 - j)
  | none => none

/-- `l.slice(-n)` on lists: the final `n` elements (all of `l` when
`l.length ≤ n`). -/
def takeRightL (n : Nat) (l : List α) : List α :=
  l.drop (l.length - n)

/-- JS `s.slice(-n)` for a positive `n`. -/
def takeRightStr (n : Nat) (s : String) : String :=
  String.mk (takeRightL n s.data)

/-- Lower-case a string character-wise (ASCII suffices for the extension
lists below). -/
def toLowerStr (s : String) : String :=
  String.mk (s.data.map Char.toLower)

/-! ## Node `path` (posix) model -/

/-- `path.posix.isAbsolute`: nonempty and starting with a slash. -/
def pathIsAbsolute (p : String) : Bool :=
  p.data.head? = some '/'

/-- Core loop of Node `path.normalize`: consume segments, skipping empty and
`.` segments, cancelling a `..` against the previously kept segment, and (for
relative paths only) keeping `..` segments that escape above the start. -/
def normSegsGo (isAbs : Bool) : List (List Char) → List (List Char) → List (List Char)
  | acc, [] => acc.reverse
  | acc, s :: rest =>
    if s = [] ∨ s = ['.'] then normSegsGo isAbs acc rest
    else if s = ['.', '.'] then
      match acc with
      | top :: acctl =>
        if top = ['.', '.'] then normSegsGo isAbs (s :: top :: acctl) rest
        else normSegsGo isAbs acctl rest
      | [] => if isAbs then normSegsGo isAbs [] rest else normSegsGo isAbs [s] rest
    else normSegsGo isAbs (s :: acc) rest

/-- Node `path.posix.normalize`. -/
def pathNormalize (p : String) : String :=
  if p.data = [] then "." else
  let isAbs := p.data.head? = some '/'
  let trailing := p.data.getLast? = some '/' ∧ p.data.length > 1
  let segs := normSegsGo isAbs [] (splitOnCharL '/' p.data)
  if segs = [] then
    (if isAbs then "/" else if trailing then "./" else ".")
  else
    let body := List.intercalate ['/'] segs
    String.mk ((if isAbs then '/' :: body else body) ++ (if trailing then ['/'] else []))

/-- Node `path.posix.join` for two components. -/
def pathJoin (a b : String) : String :=
  if a.data = [] ∧ b.data = [] then "."
  else if a.data = [] then pathNormalize b
  else if b.data = [] then pathNormalize a
  else pathNormalize (String.mk (a.data ++ '/' :: b.data))

/-- Strip every trailing slash (Node ignores them in `dirname`/`basename`). -/
def stripTrailingSlashes (l : List Char) : List Char :=
  (l.reverse.dropWhile (· = '/')).reverse

/-- Node `path.posix.dirname`. -/
def pathDirname (p : String) : String :=
  if p.data = [] then "." else
  let isRoot := p.data.head? = some '/'
  let core := stripTrailingSlashes p.data
  match lastIdxOf '/' core with
  | none => if isRoot then "/" else "."
  | some i => if i = 0 then "/" else String.mk (core.take i)

/-- Node `path.posix.basename`. -/
def pathBasename (p : String) : String :=
  let core := stripTrailingSlashes p.data
  match lastIdxOf '/' core with
  | none => String.mk core
  | some i => String.mk (core.drop (i + 1))

/-- Node `path.posix.extname`: the final dot-suffix of the basename, empty for
a dotfile. -/
def pathExtname (p : String) : String :=
  let b := (pathBasename p).data
  match lastIdxOf '.' b with
  | some i => if i = 0 then "" else String.mk (b.drop i)
  | none => ""

/-! ## Path safety (`src/server/src/utils/path-safety.ts`) -/

/-- `validateRelativePath` (path-safety.ts lines 22-40): rejects the empty
path, absolute paths, normalized paths that begin with or contain a `..`
segment, and normalized paths starting with a separator.  The `error` value
is the message of the thrown `PathSecurityError`. -/
def validateRelativePath (relativePath : String) : Except String Unit :=
  if relativePath.data = [] then .error "Path cannot be empty"
  else if pathIsAbsolute relativePath then .error "Absolute paths are not allowed"
  else
    let normalized := pathNormalize relativePath
    if jsStartsWith normalized ".." || containsSubstr normalized "/.." ||
        containsSubstr normalized "\\.." then
      .error "Path traversal (..) is not allowed"
    else if jsStartsWith normalized "/" || jsStartsWith normalized "\\" then
      .error "Path cannot start with a separator"
    else .ok ()

/-- Filesystem abstraction.  `realpathFn` is `fs.realpath` (`none` exactly on
ENOENT); `files` maps a real path to the content of the regular file stored
there; `dirs` tells whether a real path is a directory.  Writing a regular
file neither creates nor removes symlinks, so `realpathFn` is unchanged by
`writeFile`. -/
structure FS where
  realpathFn : String → Option String
  files : String → Option String
  dirs : String → Bool

/-- `resolveFilePath` (path-safety.ts lines 65-98): validate the relative
path, join it onto the repo path, resolve symlinks (falling back to the real
parent plus basename when the target itself does not exist), and require the
normalized real path to start with the normalized repo path. -/
def resolveFilePath (fs : FS) (repoPath relativePath : String) : Except String String :=
  match validateRelativePath relativePath with
  | .error e => .error e
  | .ok () =>
    let candidatePath := pathJoin repoPath relativePath
    let realRes : Except String String :=
      match fs.realpathFn candidatePath with
      | some r => .ok r
      | none =>
        let parentDir := pathDirname candidatePath
        match fs.realpathFn parentDir with
        | some realParent => .ok (pathJoin realParent (pathBasename candidatePath))
        | none => .error ("Path does not exist: " ++ relativePath)
    match realRes with
    | .error e => .error e
    | .ok realPath =>
      let normalizedRepo := pathNormalize repoPath
      let normalizedReal := pathNormalize realPath
      if jsStartsWith normalizedReal normalizedRepo then .ok realPath
      else .error "Path escapes repository boundary (symlink detected)"

/-! ## File service (`src/server/src/services/repo.ts`, second document:
`file.ts`) -/

/-- `MAX_FILE_SIZE_BYTES` configuration default (spec section 6.1). -/
def MAX_FILE_SIZE_BYTES : Nat := 2000000

/-- `BINARY_EXTENSIONS` denylist (file service lines 117-125). -/
def BINARY_EXTENSIONS : List String :=
  [".png", ".jpg", ".jpeg", ".gif", ".ico", ".webp", ".bmp", ".tiff",
   ".mp3", ".mp4", ".wav", ".ogg", ".webm", ".avi", ".mov",
   ".zip", ".tar", ".gz", ".rar", ".7z",
   ".pdf", ".doc", ".docx", ".xls", ".xlsx", ".ppt", ".pptx",
   ".exe", ".dll", ".so", ".dylib",
   ".woff", ".woff2", ".ttf", ".eot", ".otf",
   ".sqlite", ".db"]

/-- `readFile` (file service lines 204-243): resolve the path, refuse binary
extensions, `stat` the target (ENOENT when neither file nor directory), check
the size bound, require a regular file, and return `{path, content}`. -/
def readFile (fs : FS) (repoPath relativePath : String) :
    Except String (String × String) :=
  match resolveFilePath fs repoPath relativePath with
  | .error e => .error e
  | .ok filePath =>
    let ext := toLowerStr (pathExtname relativePath)
    if BINARY_EXTENSIONS.contains ext then
      .error ("Binary files are not supported: " ++ relativePath)
    else
      match fs.files filePath with
      | some content =>
        if content.utf8ByteSize > MAX_FILE_SIZE_BYTES then
          .error ("File too large: " ++ toString content.utf8ByteSize ++
                  " bytes (max: " ++ toString MAX_FILE_SIZE_BYTES ++ ")")
        else .ok (relativePath, content)
      | none =>
        if fs.dirs filePath then .error ("Not a file: " ++ relativePath)
        else .error ("File not found: " ++ relativePath)

/-- `writeFile` (file service lines 248-281): check the content size bound,
resolve the path, ensure the parent directory (no effect on `realpathFn` in
this model, since creating directories creates no symlinks), and store the
content; returns the updated filesystem and `bytesWritten`. -/
def writeFile (fs : FS) (repoPath relativePath content : String) :
    Except String (FS × Nat) :=
  let contentBytes := content.utf8ByteSize
  if contentBytes > MAX_FILE_SIZE_BYTES then
    .error ("Content too large: " ++ toString contentBytes ++
            " bytes (max: " ++ toString MAX_FILE_SIZE_BYTES ++ ")")
  else
    match resolveFilePath fs repoPath relativePath with
    | .error e => .error e
    | .ok filePath =>
      .ok ({ fs with files := fun x => if x = filePath then some content else fs.files x },
           contentBytes)

/-! ## The safe-set of the specification (section 8, "Path safety")

These definitions follow the words of the spec, not the code: they are the
formal reading of the claimed safe-set, used to state the claims about
`readFile`. -/

/-- Directory containment: `target` is `root` itself or lies strictly below
it (i.e. extends it across a path separator). -/
def underDir (root target : String) : Bool :=
  target = root || jsStartsWith target (root ++ "/")

/-- The real path of `repo/p`, resolving the parent directory when the target
itself does not exist yet (mirroring the ENOENT fallback the code uses, so
that not-yet-created files have a well-defined real path). -/
def specRealPath (fs : FS) (repo p : String) : Option String :=
  let cand := pathJoin repo p
  match fs.realpathFn cand with
  | some r => some r
  | none =>
    match fs.realpathFn (pathDirname cand) with
    | some rp => some (pathJoin rp (pathBasename cand))
    | none => none

/-- Whether the normalized form of `p` contains a `..` segment. -/
def hasDotDotSegment (p : String) : Bool :=
  (splitOnCharL '/' (pathNormalize p).data).contains ['.', '.']

/-- The safe-set of claim C1/C10: `p` is nonempty, not absolute, does not
start with a separator, has no `..` segment after normalization, and its real
path is under the real path of the repo root. -/
def inSafeSet (fs : FS) (repo p : String) : Bool :=
  !p.data.isEmpty && !pathIsAbsolute p && !jsStartsWith p "/" &&
  !hasDotDotSegment p &&
  (match specRealPath fs repo p, fs.realpathFn repo with
   | some real, some realRoot => underDir realRoot real
   | _, _ => false)

/-! ## Branch-name validators -/

/-- JS `\s` character class (the members relevant to ASCII input plus the
common Unicode spaces). -/
def isJsWhitespace (c : Char) : Bool :=
  c = ' ' || c = '\t' || c = '\n' || c = '\r' ||
  c = '\x0b' || c = '\x0c' || c = ' ' || c = ' ' || c = ' ' ||
  c = '﻿'

/-- Characters matched by the regex `[~^:\\\*\[\]\s]` of both validators. -/
def isInvalidBranchChar (c : Char) : Bool :=
  c = '~' || c = '^' || c = ':' || c = '\\' || c = '*' || c = '[' || c = ']' ||
  isJsWhitespace c

/-- Split a branch name on `/` into its segments. -/
def branchSegments (branch : String) : List (List Char) :=
  splitOnCharL '/' branch.data

/-- `validateBranchName` of the worktree service with namespaced-branch
support (the document appended to git.ts, lines 176-216): nonempty, no `..`,
no backslash, none of `~ ^ : \\ * [ ] whitespace`, does not start with a
dash, is not `@`, contains no `@{`, and every `/`-separated segment is
nonempty and neither starts nor ends with a dot. -/
def validateBranchName (branch : String) : Bool :=
  if branch.data.isEmpty then false
  else if containsSubstr branch ".." || containsSubstr branch "\\" then false
  else if branch.data.any isInvalidBranchChar then false
  else if jsStartsWith branch "-" then false
  else if branch = "@" || containsSubstr branch "@\x7b" then false
  else
    (branchSegments branch).all fun seg =>
      !seg.isEmpty && seg.head? ≠ some '.' && seg.getLast? ≠ some '.'

/-- The older `validateBranchName` of `worktree.ts` (lines 34-61), which also
rejects any forward slash (no namespaced branches). -/
def validateBranchNameNoSlash (branch : String) : Bool :=
  if branch.data.isEmpty then false
  else if containsSubstr branch ".." || containsSubstr branch "/" ||
          containsSubstr branch "\\" then false
  else if branch.data.any isInvalidBranchChar then false
  else if jsStartsWith branch "-" then false
  else if branch = "@" || containsSubstr branch "@\x7b" then false
  else true

/-! ## Replay ring buffer (`claude-session.ts` lines 13 and 205-223) -/

/-- `REPLAY_BUFFER_SIZE = 128 * 1024` (claude-session.ts line 13). -/
def REPLAY_BUFFER_SIZE : Nat := 128 * 1024

/-- List-level form of the append step of the PTY `onData` handler. -/
def appendChunkL (buf data : List Char) : List Char :=
  let b := buf ++ data
  if REPLAY_BUFFER_SIZE < b.length then takeRightL REPLAY_BUFFER_SIZE b else b

/-- The append step of the PTY `onData` handler (claude-session.ts lines
207-210): `outputBuffer += data`, then keep only the final
`REPLAY_BUFFER_SIZE` units when the buffer exceeds the capacity. -/
def appendChunk (buf data : String) : String :=
  let b := buf ++ data
  if REPLAY_BUFFER_SIZE < b.length then takeRightStr REPLAY_BUFFER_SIZE b else b

/-! ## Association-list helpers (JS `Map` with string keys) -/

/-- Lookup in an association list (`Map.get`). -/
def lookupA {β : Type} : List (String × β) → String → Option β
  | [], _ => none
  | (k, v) :: t, key => if k = key then some v else lookupA t key

/-- Update-or-append (`Map.set`). -/
def insertA {β : Type} : List (String × β) → String → β → List (String × β)
  | [], key, v => [(key, v)]
  | (k, w) :: t, key, v =>
    if k = key then (key, v) :: t else (k, w) :: insertA t key v

/-- Remove the entry with the given key (`Map.delete`; keys are unique). -/
def eraseA {β : Type} : List (String × β) → String → List (String × β)
  | [], _ => []
  | (k, w) :: t, key => if k = key then t else (k, w) :: eraseA t key

/-! ## Session manager (`src/server/src/services/claude-session.ts`) -/

/-- Session lifecycle states. -/
inductive SessState
  | starting
  | running
  | exited
deriving DecidableEq, Repr

/-- The `ClaudeSession` record (types used by claude-session.ts); dates are
millisecond timestamps. -/
structure ClaudeSession where
  id : String
  userEmail : String
  repoId : String
  repoPath : String
  name : String
  state : SessState
  createdAt : Nat
  lastActivityAt : Nat
  exitCode : Option Int := none
deriving DecidableEq, Repr

/-- A spawned PTY handle: its identity, current size and working directory. -/
structure Pty where
  ptyId : Nat
  cols : Nat
  rows : Nat
  cwd : String
deriving DecidableEq, Repr

/-- Server-to-client frames (`ServerMessage`).  Optional fields that the
sources leave `undefined` are `none`. -/
inductive ServerMessage
  | output (data : String)
  | replay (data : String)
  | status (state : SessState) (sessionId sessionName branch message : Option String)
  | error (message : String)
  | pong
deriving DecidableEq, Repr

/-- A `SessionEntry` of the manager; `clients` holds the ids of the attached
`SessionClient`s (each WebSocket connection has a unique id), `cleanupTimeout`
the id of the armed reap timer, if any. -/
structure SessionEntry where
  session : ClaudeSession
  pty : Option Pty
  outputBuffer : String
  clients : List String
  disconnectedAt : Option Nat := none
  cleanupTimeout : Option Nat := none
deriving DecidableEq, Repr

/-- The recognized configuration options the manager reads. -/
structure Config where
  MAX_SESSIONS_PER_USER : Nat
  MAX_TOTAL_SESSIONS : Nat
  DISCONNECTED_TTL_MINUTES : Nat
deriving DecidableEq, Repr

/-- The manager state: the two maps of `ClaudeSessionManager`, plus explicit
counters for fresh PTY and timer ids, the armed reap timers
`(timerId, sessionId)`, a log of every `client.send` performed, and a counter
of successful PTY spawns (instrumentation for the no-spawn claims). -/
structure Mgr where
  sessions : List (String × SessionEntry)
  userRepoSessions : List (String × List String)
  nextPty : Nat := 0
  nextTimer : Nat := 0
  pendingTimers : List (Nat × String) := []
  sent : List (String × ServerMessage) := []
  spawns : Nat := 0
deriving DecidableEq, Repr

/-- The empty manager (fresh `ClaudeSessionManager`). -/
def initialMgr : Mgr :=
  { sessions := [], userRepoSessions := [] }

/-- `getUserRepoKey` (claude-session.ts line 52). -/
def getUserRepoKey (userEmail repoId : String) : String :=
  userEmail ++ ":" ++ repoId

/-- `getUserSessionCount` (lines 454-462): iterate the session entries and
count those whose `userEmail` matches. -/
def countUser : List (String × SessionEntry) → String → Nat
  | [], _ => 0
  | (_, e) :: t, u => (if e.session.userEmail = u then 1 else 0) + countUser t u

/-- Add a client id to the `Set` of clients (object identity coincides with
the unique id). -/
def addClientId (cs : List String) (c : String) : List String :=
  if cs.contains c then cs else cs ++ [c]

/-- Remove the first client with the given id (the `for` loop of
`detachClient`, lines 308-313). -/
def removeClientId : List String → String → List String
  | [], _ => []
  | c :: t, cid => if c = cid then t else c :: removeClientId t cid

/-- `spawnClaude` (lines 183-266): spawn the PTY in `session.repoPath` with
the given size (default `120 × 30`), mark the session `running`, and send a
`status(running)` frame to every attached client.  On spawn failure the
session is marked `exited` with code 1 and the error is rethrown.  The
`onData`/`onExit` callbacks are modelled by `onDataEvent`/`onExitEvent`
below.  `spawnOk` tells whether the underlying `pty.spawn` succeeds. -/
def spawnClaude (spawnOk : Bool) (sid : String) (cols rows : Nat) (st : Mgr) :
    Mgr × Except String Unit :=
  match lookupA st.sessions sid with
  | none => (st, .ok ())
  | some entry =>
    if spawnOk then
      let ptyP : Pty := { ptyId := st.nextPty, cols := cols, rows := rows,
                          cwd := entry.session.repoPath }
      let entry1 : SessionEntry :=
        { entry with pty := some ptyP,
                     session := { entry.session with state := .running } }
      let statusSends := entry1.clients.map
        fun c => (c, ServerMessage.status .running none none none none)
      ({ st with sessions := insertA st.sessions sid entry1,
                 nextPty := st.nextPty + 1,
                 spawns := st.spawns + 1,
                 sent := st.sent ++ statusSends }, .ok ())
    else
      let session1 : ClaudeSession :=
        { entry.session with state := .exited, exitCode := some 1 }
      let entry1 : SessionEntry := { entry with session := session1 }
      ({ st with sessions := insertA st.sessions sid entry1 }, .error "spawn failed")

/-- The per-user limit error message (line 84). -/
def perUserLimitMsg (cfg : Config) : String :=
  "Maximum sessions per user reached (" ++ toString cfg.MAX_SESSIONS_PER_USER ++ ")"

/-- The global capacity error message (line 89). -/
def capacityMsg : String := "Server at maximum capacity"

/-- The fresh `ClaudeSession` record built by `createSession` (lines 96-109):
the tab name is the given one or `Session <n+1>` over the existing tabs of
the user/repo key, and the state starts as `starting`. -/
def newSession (sid : String) (now : Nat) (userEmail repoId repoPath : String)
    (name : Option String) (st : Mgr) : ClaudeSession :=
  let existing := (lookupA st.userRepoSessions (getUserRepoKey userEmail repoId)).getD []
  { id := sid, userEmail := userEmail, repoId := repoId, repoPath := repoPath,
    name := name.getD ("Session " ++ toString (existing.length + 1)),
    state := .starting, createdAt := now, lastActivityAt := now }

/-- The fresh `SessionEntry` of `createSession` (lines 111-116). -/
def newEntry (sid : String) (now : Nat) (userEmail repoId repoPath : String)
    (name : Option String) (st : Mgr) : SessionEntry :=
  { session := newSession sid now userEmail repoId repoPath name st,
    pty := none, outputBuffer := "", clients := [] }

/-- The state mutation of `createSession` before the spawn (lines 118-124):
insert the entry and track the session id under the user/repo key. -/
def createInsert (sid : String) (now : Nat) (userEmail repoId repoPath : String)
    (name : Option String) (st : Mgr) : Mgr :=
  let userRepoKey := getUserRepoKey userEmail repoId
  let existing := (lookupA st.userRepoSessions userRepoKey).getD []
  { st with sessions := insertA st.sessions sid
              (newEntry sid now userEmail repoId repoPath name st),
            userRepoSessions :=
              insertA st.userRepoSessions userRepoKey
                (if existing.contains sid then existing else existing ++ [sid]) }

/-- `createSession` (lines 73-130): check the per-user cap, then the global
cap, generate the id and tab name, insert the fresh `starting` entry, track
it under the user/repo key, then spawn the PTY.  The session returned on
success is the entry object as mutated by `spawnClaude` (so its state is
whatever the spawn set it to).  `sid` stands for the generated session id and
`now` for `Date.now()`. -/
def createSession (cfg : Config) (spawnOk : Bool) (sid : String) (now : Nat)
    (userEmail repoId repoPath : String) (name : Option String)
    (cols rows : Option Nat) (st : Mgr) : Mgr × Except String ClaudeSession :=
  if cfg.MAX_SESSIONS_PER_USER ≤ countUser st.sessions userEmail then
    (st, .error (perUserLimitMsg cfg))
  else if cfg.MAX_TOTAL_SESSIONS ≤ st.sessions.length then
    (st, .error capacityMsg)
  else
    match spawnClaude spawnOk sid (cols.getD 120) (rows.getD 30)
        (createInsert sid now userEmail repoId repoPath name st) with
    | (st2, .error e) => (st2, .error e)
    | (st2, .ok ()) =>
      (st2, .ok (((lookupA st2.sessions sid).map (·.session)).getD
        (newSession sid now userEmail repoId repoPath name st)))

/-- `getSession` (lines 135-138). -/
def getSession (sid : String) (st : Mgr) : Option ClaudeSession :=
  (lookupA st.sessions sid).map (·.session)

/-- A row of `listSessions` (`TabInfo`). -/
structure TabInfo where
  id : String
  name : String
  state : SessState
  createdAt : Nat
deriving DecidableEq, Repr

/-- Insert a tab into a list sorted by ascending creation time. -/
def insertByCreated (x : TabInfo) : List TabInfo → List TabInfo
  | [] => [x]
  | y :: t => if x.createdAt ≤ y.createdAt then x :: y :: t else y :: insertByCreated x t

/-- Sort tabs by ascending creation time (the comparator of line 165). -/
def sortByCreated (l : List TabInfo) : List TabInfo :=
  l.foldr insertByCreated []

/-- `listSessions` (lines 143-166): the tab rows of the user/repo key, sorted
by creation time. -/
def listSessions (userEmail repoId : String) (st : Mgr) : List TabInfo :=
  match lookupA st.userRepoSessions (getUserRepoKey userEmail repoId) with
  | none => []
  | some sessionIds =>
    let tabs := sessionIds.filterMap fun sid =>
      (lookupA st.sessions sid).map fun e =>
        { id := e.session.id, name := e.session.name, state := e.session.state,
          createdAt := e.session.createdAt : TabInfo }
    sortByCreated tabs

/-- `renameSession` (lines 171-178). -/
def renameSession (sid newName : String) (st : Mgr) : Mgr × Bool :=
  match lookupA st.sessions sid with
  | none => (st, false)
  | some entry =>
    let entry1 : SessionEntry :=
      { entry with session := { entry.session with name := newName } }
    ({ st with sessions := insertA st.sessions sid entry1 }, true)

/-- The `onData` callback of the spawned PTY (lines 205-223): extend the
replay ring, broadcast an `output` frame to every client, bump
`lastActivityAt`. -/
def onDataEvent (sid data : String) (now : Nat) (st : Mgr) : Mgr :=
  match lookupA st.sessions sid with
  | none => st
  | some entry =>
    let entry1 : SessionEntry :=
      { entry with outputBuffer := appendChunk entry.outputBuffer data,
                   session := { entry.session with lastActivityAt := now } }
    { st with sessions := insertA st.sessions sid entry1,
              sent := st.sent ++ entry.clients.map fun c => (c, ServerMessage.output data) }

/-- The `status(exited)` frame the `onExit` callback broadcasts. -/
def exitStatusMsg (exitCode : Int) : ServerMessage :=
  .status .exited none none none
    (some ("Claude exited with code " ++ toString exitCode))

/-- The `onExit` callback of the spawned PTY (lines 226-246): mark the
session `exited`, record the exit code, drop the PTY handle, and send the
final status frame to every attached client.  The session entry stays in the
index. -/
def onExitEvent (sid : String) (exitCode : Int) (st : Mgr) : Mgr :=
  match lookupA st.sessions sid with
  | none => st
  | some entry =>
    let session1 : ClaudeSession :=
      { entry.session with state := .exited, exitCode := some exitCode }
    let entry1 : SessionEntry := { entry with pty := none, session := session1 }
    { st with sessions := insertA st.sessions sid entry1,
              sent := st.sent ++ entry.clients.map fun c => (c, exitStatusMsg exitCode) }

/-- `attachClient` (lines 271-295): cancel any pending reap timer, clear
`disconnectedAt`, add the client to the set, bump activity, and return the
session together with the current ring contents. -/
def attachClient (sid clientId : String) (now : Nat) (st : Mgr) :
    Mgr × Option (ClaudeSession × String) :=
  match lookupA st.sessions sid with
  | none => (st, none)
  | some entry =>
    let st1 : Mgr :=
      match entry.cleanupTimeout with
      | some t => { st with pendingTimers := st.pendingTimers.filter fun p => p.1 ≠ t }
      | none => st
    let entry1 : SessionEntry :=
      { entry with cleanupTimeout := none, disconnectedAt := none,
                   clients := addClientId entry.clients clientId,
                   session := { entry.session with lastActivityAt := now } }
    ({ st1 with sessions := insertA st1.sessions sid entry1 },
     some (entry1.session, entry1.outputBuffer))

/-- `detachClient` (lines 300-322): remove the client; when the set becomes
(or stays) empty, record `disconnectedAt := now` and arm a fresh one-shot
reap timer (the previous timer, if any, is NOT cancelled). -/
def detachClient (sid clientId : String) (now : Nat) (st : Mgr) : Mgr :=
  match lookupA st.sessions sid with
  | none => st
  | some entry =>
    let clients1 := removeClientId entry.clients clientId
    if clients1.isEmpty then
      let tid := st.nextTimer
      { st with sessions := insertA st.sessions sid
                  { entry with clients := clients1, disconnectedAt := some now,
                               cleanupTimeout := some tid },
                nextTimer := tid + 1,
                pendingTimers := st.pendingTimers ++ [(tid, sid)] }
    else
      { st with sessions := insertA st.sessions sid { entry with clients := clients1 } }

/-- `sendInput` (lines 327-337): write to the PTY when one exists and bump
activity; the Bool is the success flag. -/
def sendInput (sid data : String) (now : Nat) (st : Mgr) : Mgr × Bool :=
  match lookupA st.sessions sid with
  | none => (st, false)
  | some entry =>
    match entry.pty with
    | none => (st, false)
    | some _ =>
      let entry1 : SessionEntry :=
        { entry with session := { entry.session with lastActivityAt := now } }
      ({ st with sessions := insertA st.sessions sid entry1 }, true)

/-- `resize` (lines 342-351): propagate the new size to the PTY. -/
def resizeSession (sid : String) (cols rows : Nat) (st : Mgr) : Mgr × Bool :=
  match lookupA st.sessions sid with
  | none => (st, false)
  | some entry =>
    match entry.pty with
    | none => (st, false)
    | some p =>
      let entry1 : SessionEntry :=
        { entry with pty := some { p with cols := cols, rows := rows } }
      ({ st with sessions := insertA st.sessions sid entry1 }, true)

/-- `restartSession` (lines 356-376): kill the PTY, clear the replay buffer,
and call `spawnClaude` with its DEFAULT size (no size argument is passed). -/
def restartSession (spawnOk : Bool) (sid : String) (st : Mgr) :
    Mgr × Except String (Option ClaudeSession) :=
  match lookupA st.sessions sid with
  | none => (st, .ok none)
  | some entry =>
    let entry1 : SessionEntry := { entry with pty := none, outputBuffer := "" }
    let st1 : Mgr := { st with sessions := insertA st.sessions sid entry1 }
    match spawnClaude spawnOk sid 120 30 st1 with
    | (st2, .error e) => (st2, .error e)
    | (st2, .ok ()) => (st2, .ok ((lookupA st2.sessions sid).map (·.session)))

/-- `cleanupSession` (lines 388-432): kill the PTY, clear the reap timer,
send a final `status(exited, "Session terminated")` to every client, remove
the session from the user/repo tracking and from the index. -/
def cleanupSession (sid : String) (st : Mgr) : Mgr × Bool :=
  match lookupA st.sessions sid with
  | none => (st, false)
  | some entry =>
    let st1 : Mgr :=
      match entry.cleanupTimeout with
      | some t => { st with pendingTimers := st.pendingTimers.filter fun p => p.1 ≠ t }
      | none => st
    let sends := entry.clients.map fun c =>
      (c, ServerMessage.status .exited none none none (some "Session terminated"))
    let key := getUserRepoKey entry.session.userEmail entry.session.repoId
    let userSess := ((lookupA st1.userRepoSessions key).getD []).erase sid
    let urs := if userSess.isEmpty then eraseA st1.userRepoSessions key
               else insertA st1.userRepoSessions key userSess
    ({ st1 with sessions := eraseA st1.sessions sid,
                userRepoSessions := urs,
                sent := st1.sent ++ sends }, true)

/-- `terminateSession` (lines 381-383). -/
def terminateSession (sid : String) (st : Mgr) : Mgr × Bool :=
  cleanupSession sid st

/-- A reap timer firing: a timer still armed runs `cleanupSession` on its
session (a cancelled timer never fires). -/
def timerFire (tid : Nat) (st : Mgr) : Mgr :=
  match st.pendingTimers.find? (fun p => p.1 = tid) with
  | some p =>
    (cleanupSession p.2 { st with pendingTimers := st.pendingTimers.filter fun q => q.1 ≠ tid }).1
  | none => st

/-- `cleanupExpiredSessions` (lines 437-449): reap every session whose
`disconnectedAt` is older than the TTL. -/
def cleanupExpiredSessions (cfg : Config) (now : Nat) (st : Mgr) : Mgr :=
  (st.sessions.map (·.1)).foldl
    (fun acc sid =>
      match lookupA acc.sessions sid with
      | some e =>
        match e.disconnectedAt with
        | some t =>
          if cfg.DISCONNECTED_TTL_MINUTES * 60 * 1000 < now - t
          then (cleanupSession sid acc).1 else acc
        | none => acc
      | none => acc)
    st

/-! ## Terminal WebSocket endpoint (`wsRoutes`, `/ws/claude`) -/

/-- Client-to-server frames after schema validation (`clientMessageSchema`). -/
inductive ClientMessage
  | attach (sessionId : Option String) (cols rows : Option Nat) (branch : Option String)
  | input (data : String)
  | resize (cols rows : Nat)
  | ping
  | restart
deriving DecidableEq, Repr

/-- Per-connection handler state: the session the socket is attached to, and
whether the socket is still open (message handling never closes it; only the
keep-alive timer does). -/
structure WsConn where
  currentSessionId : Option String := none
  socketOpen : Bool := true
deriving DecidableEq, Repr

/-- Shared tail of the `attach` case (wsRoutes lines 136-164): record the
current session id, attach the client, and send the `status` frame followed
by the `replay` frame (the latter only when the ring is nonempty).  The
`branch` field of the status frame is `undefined` for this manager (its
sessions carry no branch). -/
def wsProceedAttach (sid clientId : String) (now : Nat) (conn : WsConn) (st : Mgr) :
    WsConn × Mgr × List ServerMessage :=
  let conn1 : WsConn := { conn with currentSessionId := some sid }
  match attachClient sid clientId now st with
  | (st1, some (s, replayData)) =>
    let statusFrame := ServerMessage.status s.state (some s.id) (some s.name) none none
    let frames := if replayData = "" then [statusFrame]
                  else [statusFrame, ServerMessage.replay replayData]
    (conn1, st1, frames)
  | (st1, none) => (conn1, st1, [ServerMessage.error "Failed to attach to session"])

/-- One step of the socket `message` handler (wsRoutes lines 99-279).

`parsed = none` is a frame that failed `JSON.parse` or the zod schema: the
`catch` block sends a single `error` frame and the socket stays open.  The
analytics-only input buffering of the handler (which sends no frames and
touches no session state) is not modelled.  `spawnOk` tells whether a PTY
spawn performed by this step succeeds, `freshSid` is the session id generated
when `attach` creates a new session. -/
def handleWsFrame (cfg : Config) (spawnOk : Bool) (freshSid : String) (now : Nat)
    (userEmail repoId repoPath clientId : String)
    (parsed : Option ClientMessage) (conn : WsConn) (st : Mgr) :
    WsConn × Mgr × List ServerMessage :=
  match parsed with
  | none => (conn, st, [ServerMessage.error "Invalid message format"])
  | some msg =>
    match msg with
    | .attach sessionId cols rows _branch =>
      (match sessionId with
       | some sid =>
         (match getSession sid st with
          | none => (conn, st, [ServerMessage.error "Session not found"])
          | some s =>
            if s.userEmail ≠ userEmail ∨ s.repoId ≠ repoId then
              (conn, st, [ServerMessage.error "Session access denied"])
            else wsProceedAttach sid clientId now conn st)
       | none =>
         (match createSession cfg spawnOk freshSid now userEmail repoId repoPath
                  none cols rows st with
          | (st1, .error e) => (conn, st1, [ServerMessage.error e])
          | (st1, .ok s) => wsProceedAttach s.id clientId now conn st1))
    | .input data =>
      (match conn.currentSessionId with
       | none => (conn, st, [ServerMessage.error "Not attached to session"])
       | some sid =>
         let (st1, success) := sendInput sid data now st
         (conn, st1, if success then [] else [ServerMessage.error "Session not running"]))
    | .resize cols rows =>
      (match conn.currentSessionId with
       | none => (conn, st, [])
       | some sid => (conn, (resizeSession sid cols rows st).1, []))
    | .ping => (conn, st, [ServerMessage.pong])
    | .restart =>
      (match conn.currentSessionId with
       | none => (conn, st, [ServerMessage.error "Not attached to session"])
       | some sid =>
         match restartSession spawnOk sid st with
         | (st1, .error e) => (conn, st1, [ServerMessage.error e])
         | (st1, .ok none) => (conn, st1, [ServerMessage.error "Failed to restart session"])
         | (st1, .ok (some s)) =>
           (conn, st1,
            [ServerMessage.status s.state none none none (some "Session restarted")]))

/-! ## `POST /api/sessions` (api routes lines 947-988) -/

/-- Outcome of the `POST /api/sessions` handler. -/
inductive PostOutcome
  | created (id name : String) (state : SessState) (createdAt : Nat)
  | limited (status : Nat) (code : String)
  | rethrown (msg : String)
deriving DecidableEq, Repr

/-- The `try/catch` of `POST /api/sessions`: a success returns the session
row; an error whose message contains the per-user-limit text is mapped to
`429 MAX_SESSIONS_PER_USER`, one containing the capacity text to
`503 SERVER_MAX_CAPACITY`, anything else is rethrown. -/
def postSessionsOutcome (r : Except String ClaudeSession) : PostOutcome :=
  match r with
  | .ok s => .created s.id s.name s.state s.createdAt
  | .error m =>
    if containsSubstr m "Maximum sessions per user reached" then
      .limited 429 "MAX_SESSIONS_PER_USER"
    else if containsSubstr m "Server at maximum capacity" then
      .limited 503 "SERVER_MAX_CAPACITY"
    else .rethrown m

/-! ## Manager operations as a transition system

The claims about invariants quantify over "every moment"; reachable states
are those produced by any sequence of manager operations starting from the
fresh manager. -/

/-- Every state-mutating entry point of the session manager, together with
the event callbacks and timers. -/
inductive MgrOp
  | create (spawnOk : Bool) (sid : String) (now : Nat)
      (userEmail repoId repoPath : String) (name : Option String)
      (cols rows : Option Nat)
  | attach (sid clientId : String) (now : Nat)
  | detach (sid clientId : String) (now : Nat)
  | inputOp (sid data : String) (now : Nat)
  | resizeOp (sid : String) (cols rows : Nat)
  | renameOp (sid newName : String)
  | restartOp (spawnOk : Bool) (sid : String)
  | terminateOp (sid : String)
  | dataEvent (sid data : String) (now : Nat)
  | exitEvent (sid : String) (exitCode : Int)
  | timerOp (tid : Nat)
  | sweepOp (now : Nat)

/-- Apply one manager operation to the state. -/
def stepMgr (cfg : Config) (op : MgrOp) (st : Mgr) : Mgr :=
  match op with
  | .create spawnOk sid now u rid rp name cols rows =>
    (createSession cfg spawnOk sid now u rid rp name cols rows st).1
  | .attach sid cid now => (attachClient sid cid now st).1
  | .detach sid cid now => detachClient sid cid now st
  | .inputOp sid data now => (sendInput sid data now st).1
  | .resizeOp sid c r => (resizeSession sid c r st).1
  | .renameOp sid n => (renameSession sid n st).1
  | .restartOp spawnOk sid => (restartSession spawnOk sid st).1
  | .terminateOp sid => (terminateSession sid st).1
  | .dataEvent sid data now => onDataEvent sid data now st
  | .exitEvent sid code => onExitEvent sid code st
  | .timerOp tid => timerFire tid st
  | .sweepOp now => cleanupExpiredSessions cfg now st

/-- Run a sequence of operations from the fresh manager. -/
def runMgr (cfg : Config) (ops : List MgrOp) : Mgr :=
  ops.foldl (fun st op => stepMgr cfg op st) initialMgr

/-- The capacity invariant of spec section 3 on a session list: per-user
count bounded by the per-user cap, total count bounded by the global cap. -/
def InvCapL (cfg : Config) (l : List (String × SessionEntry)) : Prop :=
  (∀ u, countUser l u ≤ cfg.MAX_SESSIONS_PER_USER) ∧
  l.length ≤ cfg.MAX_TOTAL_SESSIONS

/-- The capacity invariant of a manager state. -/
def InvCap (cfg : Config) (st : Mgr) : Prop :=
  InvCapL cfg st.sessions

/-! # Theorems -/

/-! ## C3: branch-name validator -/

/-- C3: the branch-name validator accepts "main", "feature/x" and
"claude/user/main", and rejects "", "-x", "a..b", "@", "a@{1}", "a/./b",
"a//b", ".hidden", "x " and "x*". -/
theorem branch_validator_C3 :
    validateBranchName "main" = true ∧
    validateBranchName "feature/x" = true ∧
    validateBranchName "claude/user/main" = true ∧
    validateBranchName "" = false ∧
    validateBranchName "-x" = false ∧
    validateBranchName "a..b" = false ∧
    validateBranchName "@" = false ∧
    validateBranchName "a@{1}" = false ∧
    validateBranchName "a/./b" = false ∧
    validateBranchName "a//b" = false ∧
    validateBranchName ".hidden" = false ∧
    validateBranchName "x " = false ∧
    validateBranchName "x*" = false := by
  decide

/-! ## C4: replay ring buffer -/

theorem string_data_mk (X : List Char) : (String.mk X).data = X := rfl

theorem data_takeRightStr (n : Nat) (s : String) :
    (takeRightStr n s).data = takeRightL n s.data := rfl

theorem takeRightL_eq_reverse_take {α : Type} (n : Nat) (l : List α) :
    takeRightL n l = (l.reverse.take n).reverse := by
  have h : takeRightL n l = List.rtake l n := rfl
  rw [h]
  exact List.rtake_eq_reverse_take_reverse l n

theorem length_takeRightL {α : Type} (n : Nat) (l : List α) :
    (takeRightL n l).length = min n l.length := by
  rw [takeRightL_eq_reverse_take]
  simp

theorem takeRightL_of_le {α : Type} {n : Nat} {l : List α} (h : l.length ≤ n) :
    takeRightL n l = l := by
  unfold takeRightL
  rw [Nat.sub_eq_zero_of_le h, List.drop_zero]

theorem takeRightL_append_left {α : Type} (n : Nat) (x y : List α) :
    takeRightL n (takeRightL n x ++ y) = takeRightL n (x ++ y) := by
  rw [takeRightL_eq_reverse_take n (takeRightL n x ++ y),
      takeRightL_eq_reverse_take n x, takeRightL_eq_reverse_take n (x ++ y)]
  rw [List.reverse_append, List.reverse_reverse, List.reverse_append]
  congr 1
  rw [List.take_append_eq_append_take, List.take_append_eq_append_take, List.take_take]
  congr 2
  omega

theorem appendChunkL_step (C d : List Char) :
    appendChunkL (takeRightL REPLAY_BUFFER_SIZE C) d =
      takeRightL REPLAY_BUFFER_SIZE (C ++ d) := by
  unfold appendChunkL
  by_cases h : REPLAY_BUFFER_SIZE < (takeRightL REPLAY_BUFFER_SIZE C ++ d).length
  · rw [if_pos h, takeRightL_append_left]
  · rw [if_neg h]
    rw [List.length_append, length_takeRightL] at h
    by_cases hc : C.length ≤ REPLAY_BUFFER_SIZE
    · have hcd : (C ++ d).length ≤ REPLAY_BUFFER_SIZE := by
        rw [List.length_append]
        omega
      rw [takeRightL_of_le hc, takeRightL_of_le hcd]
    · have hd : d.length = 0 := by omega
      have hd' : d = [] := List.eq_nil_of_length_eq_zero hd
      subst hd'
      simp

theorem foldl_appendChunkL (chunks : List (List Char)) (C : List Char) :
    chunks.foldl appendChunkL (takeRightL REPLAY_BUFFER_SIZE C) =
      takeRightL REPLAY_BUFFER_SIZE (C ++ chunks.flatten) := by
  induction chunks generalizing C with
  | nil => rw [List.foldl_nil, List.flatten_nil, List.append_nil]
  | cons d rest ih =>
    rw [List.foldl_cons, appendChunkL_step, ih, List.flatten_cons, List.append_assoc]

theorem appendChunk_data (b d : String) :
    (appendChunk b d).data = appendChunkL b.data d.data := by
  have hlen : (b ++ d).length = (b.data ++ d.data).length := by
    rw [← String.data_append]
    rfl
  simp only [appendChunk, appendChunkL, takeRightStr, hlen, String.data_append]
  split
  · exact string_data_mk _
  · exact String.data_append b d

theorem foldl_appendChunk_data (chunks : List String) (b : String) :
    (chunks.foldl appendChunk b).data =
      (chunks.map String.data).foldl appendChunkL b.data := by
  induction chunks generalizing b with
  | nil => rfl
  | cons d rest ih =>
    rw [List.foldl_cons, List.map_cons, List.foldl_cons, ih, appendChunk_data]

theorem join_data (l : List String) :
    (String.join l).data = (l.map String.data).flatten := by
  have aux : ∀ (l : List String) (a : String),
      (l.foldl (fun r s => r ++ s) a).data = a.data ++ (l.map String.data).flatten := by
    intro l
    induction l with
    | nil => intro a; simp
    | cons h t ih =>
      intro a
      rw [List.foldl_cons, ih, String.data_append]
      simp
  have := aux l ""
  simpa [String.join] using this

/-- C4: folding any sequence of PTY output chunks through the `onData`
append step keeps the replay buffer within `REPLAY_BUFFER_SIZE` and leaves it
equal to the most recent suffix (`slice(-REPLAY_BUFFER_SIZE)`) of the
concatenation of everything emitted so far; since the chunk list is
arbitrary, this holds after each append. -/
theorem replay_ring_C4 (chunks : List String) :
    (chunks.foldl appendChunk "").length ≤ REPLAY_BUFFER_SIZE ∧
    chunks.foldl appendChunk "" =
      takeRightStr REPLAY_BUFFER_SIZE (String.join chunks) := by
  have hdata : (chunks.foldl appendChunk "").data =
      takeRightL REPLAY_BUFFER_SIZE (String.join chunks).data := by
    rw [foldl_appendChunk_data, join_data]
    have h0 : ("" : String).data = takeRightL REPLAY_BUFFER_SIZE ([] : List Char) := by
      decide
    rw [h0, foldl_appendChunkL, List.nil_append]
  constructor
  · have hlen := congrArg List.length hdata
    rw [length_takeRightL] at hlen
    have hL : (chunks.foldl appendChunk "").length =
        (chunks.foldl appendChunk "").data.length := rfl
    rw [hL, hlen]
    exact Nat.min_le_left _ _
  · apply String.ext
    rw [data_takeRightStr]
    exact hdata

/-! ## C1: path safety of readFile -/

/-- Decidable equality for `Except` results, to state results of the file
operations. -/
instance instDecEqExcept {ε α : Type} [DecidableEq ε] [DecidableEq α] :
    DecidableEq (Except ε α) := fun a b =>
  match a, b with
  | .ok x, .ok y =>
    if h : x = y then isTrue (congrArg Except.ok h)
    else isFalse (fun hc => h (Except.ok.inj hc))
  | .error x, .error y =>
    if h : x = y then isTrue (congrArg Except.error h)
    else isFalse (fun hc => h (Except.error.inj hc))
  | .ok _, .error _ => isFalse (fun hc => Except.noConfusion hc)
  | .error _, .ok _ => isFalse (fun hc => Except.noConfusion hc)

/-- Whether a result is an error. -/
def isErr {ε α : Type} : Except ε α → Bool
  | .error _ => true
  | .ok _ => false

/-- A concrete filesystem exhibiting a symlink to a sibling file whose
absolute path extends the repo root without a separator:
`/r/repo/link -> /r/repo-evil`, a regular file next to the repo root
`/r/repo`. -/
def fsC1 : FS :=
  { realpathFn := fun s =>
      if s = "/r/repo" then some "/r/repo"
      else if s = "/r/repo/link" then some "/r/repo-evil"
      else if s = "/r/repo-evil" then some "/r/repo-evil"
      else none,
    files := fun s => if s = "/r/repo-evil" then some "oops" else none,
    dirs := fun s => s = "/r/repo" }

/-- C1 counterexample: the path `link` is OUTSIDE the safe-set (its real path
`/r/repo-evil` is not under the real repo root `/r/repo`), yet `readFile`
returns the file contents: the containment check is a raw string-prefix test
and `/r/repo-evil` extends `/r/repo` without a separator. -/
theorem path_safety_C1_counterexample :
    inSafeSet fsC1 "/r/repo" "link" = false ∧
    readFile fsC1 "/r/repo" "link" = .ok ("link", "oops") := by
  decide

/-- C1 (amended): every lexical violation rejected by `validateRelativePath`
makes `readFile` fail, and any path `resolveFilePath` accepts has a
normalized real path that extends the normalized repo root AS A STRING
PREFIX (not necessarily across a separator, which is the weaker guarantee
the code actually enforces). -/
theorem path_safety_C1 (fs : FS) (repoPath p : String) :
    (isErr (validateRelativePath p) = true → isErr (readFile fs repoPath p) = true) ∧
    (∀ r, resolveFilePath fs repoPath p = .ok r →
      validateRelativePath p = .ok () ∧
      jsStartsWith (pathNormalize r) (pathNormalize repoPath) = true) := by
  constructor
  · intro h
    unfold readFile resolveFilePath
    cases hv : validateRelativePath p with
    | error e => simp [isErr]
    | ok u => rw [hv] at h; simp [isErr] at h
  · intro r hr
    unfold resolveFilePath at hr
    cases hv : validateRelativePath p with
    | error e => rw [hv] at hr; simp at hr
    | ok u =>
      cases u
      rw [hv] at hr
      simp only [] at hr
      constructor
      · rfl
      · split at hr
        · simp at hr
        · split at hr
          · rename_i hcond
            cases hr
            exact hcond
          · simp at hr

/-- Witness for C1: the traversal path `../etc` is lexically rejected and
`readFile` fails on it. -/
theorem path_safety_C1_witness :
    isErr (validateRelativePath "../etc") = true ∧
    isErr (readFile fsC1 "/r/repo" "../etc") = true :=
  ⟨by decide, (path_safety_C1 fsC1 "/r/repo" "../etc").1 (by decide)⟩

/-! ## C10: write-then-read round trip -/

/-- `PUT /api/file` followed by `GET /api/file` on the same path:
`writeFile` then `readFile` on the resulting filesystem. -/
def writeThenRead (fs : FS) (repoPath p c : String) : Except String (String × String) :=
  match writeFile fs repoPath p c with
  | .error e => .error e
  | .ok (fs2, _) => readFile fs2 repoPath p

/-- A plain repository at `/r/repo` with no symlinks and no files yet. -/
def fsPlain : FS :=
  { realpathFn := fun s => if s = "/r/repo" then some "/r/repo" else none,
    files := fun _ => none,
    dirs := fun s => s = "/r/repo" }

/-- C10 counterexample: `img.png` is in the safe-set and the one-byte content
fits the size bound, yet write-then-read does not return the content:
`writeFile` accepts any extension while `readFile` refuses the binary
denylist. -/
theorem roundtrip_C10_counterexample :
    inSafeSet fsPlain "/r/repo" "img.png" = true ∧
    ("x" : String).utf8ByteSize ≤ MAX_FILE_SIZE_BYTES ∧
    writeThenRead fsPlain "/r/repo" "img.png" "x" =
      .error "Binary files are not supported: img.png" := by
  refine ⟨by decide, by decide, by decide⟩

/-- C10 (amended): for a path that resolves inside the repo and whose
extension is NOT on the binary denylist, writing content within the size
bound and reading it back returns the content byte-for-byte. -/
theorem roundtrip_C10 (fs : FS) (repoPath p c target : String)
    (hres : resolveFilePath fs repoPath p = .ok target)
    (hsize : c.utf8ByteSize ≤ MAX_FILE_SIZE_BYTES)
    (hext : BINARY_EXTENSIONS.contains (toLowerStr (pathExtname p)) = false) :
    writeThenRead fs repoPath p c = .ok (p, c) := by
  have hfs2 : resolveFilePath
      { fs with files := fun x => if x = target then some c else fs.files x }
      repoPath p = .ok target := by
    rw [← hres]
    rfl
  unfold writeThenRead writeFile
  rw [if_neg (by omega), hres]
  unfold readFile
  dsimp only
  rw [hfs2, hext]
  simp only [Bool.false_eq_true, if_false, if_true]
  rw [if_neg (by omega)]

/-- Witness for C10: writing `hello` to `notes.txt` and reading it back
returns `hello`. -/
theorem roundtrip_C10_witness :
    resolveFilePath fsPlain "/r/repo" "notes.txt" = .ok "/r/repo/notes.txt" ∧
    ("hello" : String).utf8ByteSize ≤ MAX_FILE_SIZE_BYTES ∧
    BINARY_EXTENSIONS.contains (toLowerStr (pathExtname "notes.txt")) = false ∧
    writeThenRead fsPlain "/r/repo" "notes.txt" "hello" = .ok ("notes.txt", "hello") :=
  ⟨by decide, by decide, by decide,
   roundtrip_C10 fsPlain "/r/repo" "notes.txt" "hello" "/r/repo/notes.txt"
     (by decide) (by decide) (by decide)⟩

/-! ## Association-list lemmas -/

theorem lookupA_insertA_self {β : Type} (l : List (String × β)) (k : String) (v : β) :
    lookupA (insertA l k v) k = some v := by
  induction l with
  | nil => simp [insertA, lookupA]
  | cons hd t ih =>
    obtain ⟨k1, v1⟩ := hd
    by_cases hk : k1 = k
    · subst hk
      simp [insertA, lookupA]
    · simp [insertA, lookupA, hk, ih]

theorem length_insertA_le {β : Type} (l : List (String × β)) (k : String) (v : β) :
    (insertA l k v).length ≤ l.length + 1 := by
  induction l with
  | nil => simp [insertA]
  | cons hd t ih =>
    obtain ⟨k1, v1⟩ := hd
    by_cases hk : k1 = k
    · subst hk
      simp [insertA]
    · simp only [insertA, if_neg hk, List.length_cons]
      omega

theorem length_insertA_of_lookup {β : Type} {l : List (String × β)} {k : String}
    {e : β} (h : lookupA l k = some e) (v : β) :
    (insertA l k v).length = l.length := by
  induction l with
  | nil => simp [lookupA] at h
  | cons hd t ih =>
    obtain ⟨k1, v1⟩ := hd
    by_cases hk : k1 = k
    · subst hk
      simp [insertA]
    · simp only [lookupA, if_neg hk] at h
      simp only [insertA, if_neg hk, List.length_cons, ih h]

theorem countUser_insertA_le (l : List (String × SessionEntry)) (k : String)
    (v : SessionEntry) (u : String) :
    countUser (insertA l k v) u ≤ countUser l u + 1 := by
  induction l with
  | nil =>
    simp only [insertA, countUser]
    split <;> omega
  | cons hd t ih =>
    obtain ⟨k1, v1⟩ := hd
    by_cases hk : k1 = k
    · subst hk
      simp only [insertA, if_pos rfl, countUser]
      split <;> split <;> omega
    · simp only [insertA, if_neg hk, countUser]
      split <;> omega

theorem countUser_insertA_of_neg {v : SessionEntry} {u : String}
    (hv : v.session.userEmail ≠ u) (l : List (String × SessionEntry)) (k : String) :
    countUser (insertA l k v) u ≤ countUser l u := by
  induction l with
  | nil =>
    simp [insertA, countUser, hv]
  | cons hd t ih =>
    obtain ⟨k1, v1⟩ := hd
    by_cases hk : k1 = k
    · subst hk
      simp only [insertA, if_pos rfl, countUser, if_neg hv]
      split <;> omega
    · simp only [insertA, if_neg hk, countUser]
      split <;> omega

theorem countUser_insertA_of_lookup {l : List (String × SessionEntry)} {k : String}
    {e : SessionEntry} (h : lookupA l k = some e) (v : SessionEntry)
    (hsame : v.session.userEmail = e.session.userEmail) (u : String) :
    countUser (insertA l k v) u = countUser l u := by
  induction l with
  | nil => simp [lookupA] at h
  | cons hd t ih =>
    obtain ⟨k1, v1⟩ := hd
    by_cases hk : k1 = k
    · subst hk
      rw [lookupA, if_pos rfl] at h
      have hv1 : v1 = e := Option.some.inj h
      subst hv1
      simp only [insertA, if_pos rfl, countUser, hsame]
    · rw [lookupA, if_neg hk] at h
      simp only [insertA, if_neg hk, countUser, ih h]

theorem length_eraseA_le {β : Type} (l : List (String × β)) (k : String) :
    (eraseA l k).length ≤ l.length := by
  induction l with
  | nil => simp [eraseA]
  | cons hd t ih =>
    obtain ⟨k1, v1⟩ := hd
    by_cases hk : k1 = k
    · subst hk
      have h1 : eraseA ((k1, v1) :: t) k1 = t := by simp [eraseA]
      rw [h1, List.length_cons]
      omega
    · simp only [eraseA, if_neg hk, List.length_cons]
      omega

theorem countUser_eraseA_le (l : List (String × SessionEntry)) (k u : String) :
    countUser (eraseA l k) u ≤ countUser l u := by
  induction l with
  | nil => simp [eraseA]
  | cons hd t ih =>
    obtain ⟨k1, v1⟩ := hd
    by_cases hk : k1 = k
    · subst hk
      have h1 : eraseA ((k1, v1) :: t) k1 = t := by simp [eraseA]
      rw [h1]
      simp only [countUser]
      split <;> omega
    · simp only [eraseA, if_neg hk, countUser]
      split <;> omega

/-! ## C5: state of a freshly created session -/

theorem spawnClaude_true_ok (sid : String) (cols rows : Nat) (st : Mgr) :
    (spawnClaude true sid cols rows st).2 = .ok () := by
  unfold spawnClaude
  cases hl : lookupA st.sessions sid <;> simp [hl]

theorem spawnClaude_true_lookup {st : Mgr} {sid : String} {entry : SessionEntry}
    (hl : lookupA st.sessions sid = some entry) (cols rows : Nat) :
    lookupA (spawnClaude true sid cols rows st).1.sessions sid =
      some { entry with
             pty := some { ptyId := st.nextPty, cols := cols, rows := rows,
                           cwd := entry.session.repoPath },
             session := { entry.session with state := .running } } := by
  unfold spawnClaude
  rw [hl]
  dsimp only
  exact lookupA_insertA_self _ _ _

/-- Concrete configuration used by the concrete scenarios (the documented
defaults of spec section 6.1). -/
def cfgDemo : Config :=
  { MAX_SESSIONS_PER_USER := 3, MAX_TOTAL_SESSIONS := 20,
    DISCONNECTED_TTL_MINUTES := 20 }

/-- C5 counterexample: a successful `createSession` (on the fresh manager,
with an 80 × 24 terminal) hands the caller a session whose state is already
`running`, not `starting`: `spawnClaude` sets `running` the moment
`pty.spawn` returns, and `createSession` returns the mutated object. -/
theorem create_state_C5_counterexample :
    (createSession cfgDemo true "s1" 5 "u@x" "r/demo" "/r/demo" none
        (some 80) (some 24) initialMgr).2 =
      .ok { id := "s1", userEmail := "u@x", repoId := "r/demo",
            repoPath := "/r/demo", name := "Session 1", state := .running,
            createdAt := 5, lastActivityAt := 5 } ∧
    SessState.running ≠ SessState.starting := by
  exact ⟨by decide, by decide⟩


theorem lookupA_createInsert (sid : String) (now : Nat) (u rid rp : String)
    (nm : Option String) (st : Mgr) :
    lookupA (createInsert sid now u rid rp nm st).sessions sid =
      some (newEntry sid now u rid rp nm st) := by
  unfold createInsert
  dsimp only
  exact lookupA_insertA_self _ _ _

theorem spawnClaude_false_eq {st : Mgr} {sid : String} {entry : SessionEntry}
    (hl : lookupA st.sessions sid = some entry) (cols rows : Nat) :
    spawnClaude false sid cols rows st =
      ({ st with
         sessions := insertA st.sessions sid
           { entry with
             session := { entry.session with state := .exited, exitCode := some 1 } } },
       .error "spawn failed") := by
  unfold spawnClaude
  rw [hl]
  rfl

/-- C5 (amended): whenever `createSession` succeeds the session it returns is
in state `running` (the implementation marks the session `running` as soon as
the PTY spawn returns, before any readiness signal); when the spawn fails the
caller receives the spawn error and the stored session is `exited` with exit
code 1. -/
theorem create_state_C5 :
    (∀ cfg sid now u rid rp nm c r st s,
        (createSession cfg true sid now u rid rp nm c r st).2 = .ok s →
        s.state = .running) ∧
    (∀ cfg sid now u rid rp nm c r st,
        countUser st.sessions u < cfg.MAX_SESSIONS_PER_USER →
        st.sessions.length < cfg.MAX_TOTAL_SESSIONS →
        (createSession cfg false sid now u rid rp nm c r st).2 =
          .error "spawn failed" ∧
        lookupA (createSession cfg false sid now u rid rp nm c r st).1.sessions sid =
          some { newEntry sid now u rid rp nm st with
                 session :=
                   { newSession sid now u rid rp nm st with state := .exited, exitCode := some 1 } }) := by
  constructor
  · intro cfg sid now u rid rp nm c r st s h
    unfold createSession at h
    split at h
    · simp at h
    · split at h
      · simp at h
      · have hl := lookupA_createInsert sid now u rid rp nm st
        have hok := spawnClaude_true_ok sid (c.getD 120) (r.getD 30)
          (createInsert sid now u rid rp nm st)
        have hlook := spawnClaude_true_lookup hl (c.getD 120) (r.getD 30)
        rcases hsp : spawnClaude true sid (c.getD 120) (r.getD 30)
            (createInsert sid now u rid rp nm st) with ⟨st2, res⟩
        rw [hsp] at h hok hlook
        dsimp only at hok
        subst hok
        dsimp only at h hlook
        rw [hlook] at h
        dsimp only [Option.map, Option.getD] at h
        have hs := Except.ok.inj h
        rw [← hs]
  · intro cfg sid now u rid rp nm c r st h1 h2
    have hl := lookupA_createInsert sid now u rid rp nm st
    have hEq : createSession cfg false sid now u rid rp nm c r st =
        ({ createInsert sid now u rid rp nm st with
           sessions := insertA (createInsert sid now u rid rp nm st).sessions sid
             { newEntry sid now u rid rp nm st with
               session := { (newEntry sid now u rid rp nm st).session with
                            state := .exited, exitCode := some 1 } } },
         .error "spawn failed") := by
      unfold createSession
      rw [if_neg (by omega), if_neg (by omega), spawnClaude_false_eq hl]
    rw [hEq]
    constructor
    · rfl
    · exact lookupA_insertA_self _ _ _

/-- The session object produced by the witness call below. -/
def c5WitnessSession : ClaudeSession :=
  { id := "s2", userEmail := "v@x", repoId := "r/demo", repoPath := "/r/demo",
    name := "Session 1", state := .running, createdAt := 7, lastActivityAt := 7 }

/-- Witness for C5: a concrete successful creation returns a session in
state `running`. -/
theorem create_state_C5_witness :
    (createSession cfgDemo true "s2" 7 "v@x" "r/demo" "/r/demo" none none none
        initialMgr).2 = .ok c5WitnessSession ∧
    c5WitnessSession.state = .running :=
  ⟨by decide,
   create_state_C5.1 cfgDemo "s2" 7 "v@x" "r/demo" "/r/demo" none none none
     initialMgr c5WitnessSession (by decide)⟩

/-! ## C6: restartSession -/

theorem spawnClaude_true_eq {st : Mgr} {sid : String} {entry : SessionEntry}
    (hl : lookupA st.sessions sid = some entry) (cols rows : Nat) :
    spawnClaude true sid cols rows st =
      ({ st with
         sessions := insertA st.sessions sid
           { entry with
             pty := some { ptyId := st.nextPty, cols := cols, rows := rows,
                           cwd := entry.session.repoPath },
             session := { entry.session with state := .running } },
         nextPty := st.nextPty + 1,
         spawns := st.spawns + 1,
         sent := st.sent ++ entry.clients.map
           (fun c => (c, ServerMessage.status .running none none none none)) },
       .ok ()) := by
  unfold spawnClaude
  rw [hl]
  rfl

/-- The manager after creating session `s1` with an 80 × 24 terminal and
attaching client `c1`. -/
def mgrC6 : Mgr :=
  (attachClient "s1" "c1" 6
    (createSession cfgDemo true "s1" 5 "u@x" "r/demo" "/r/demo" none
      (some 80) (some 24) initialMgr).1).1

/-- C6 counterexample: the session was created with an 80 × 24 PTY, but
`restartSession` respawns with the DEFAULT 120 × 30 size (no size argument is
passed to `spawnClaude`), and the session is set straight to `running`, never
re-entering `starting`. -/
theorem restart_C6_counterexample :
    ((lookupA mgrC6.sessions "s1").map (·.pty)) =
      some (some { ptyId := 0, cols := 80, rows := 24, cwd := "/r/demo" }) ∧
    ((lookupA (restartSession true "s1" mgrC6).1.sessions "s1").map
        (fun e => (e.pty, e.session.state))) =
      some (some { ptyId := 1, cols := 120, rows := 30, cwd := "/r/demo" },
            SessState.running) ∧
    (120 ≠ 80 ∧ (30 : Nat) ≠ 24) ∧
    SessState.running ≠ SessState.starting := by
  refine ⟨by decide, by decide, by decide, by decide⟩

/-- C6 (amended): for an existing session, `restartSession` kills the PTY,
clears the replay buffer, respawns in the same working directory with the
DEFAULT size 120 × 30 (not the previously recorded one), marks the session
`running` on successful spawn (it never re-enters `starting`), preserves the
attached client set, and sends `status(running)` to those clients. -/
theorem restart_C6 (st : Mgr) (sid : String) (entry : SessionEntry)
    (hl : lookupA st.sessions sid = some entry) :
    (restartSession true sid st).2 =
      .ok (some { entry.session with state := .running }) ∧
    lookupA (restartSession true sid st).1.sessions sid =
      some { entry with
             pty := some { ptyId := st.nextPty, cols := 120, rows := 30,
                           cwd := entry.session.repoPath },
             outputBuffer := "",
             session := { entry.session with state := .running } } ∧
    (restartSession true sid st).1.sent =
      st.sent ++ entry.clients.map
        (fun c => (c, ServerMessage.status .running none none none none)) := by
  have hl1 : lookupA (insertA st.sessions sid
      { entry with pty := none, outputBuffer := "" }) sid =
      some { entry with pty := none, outputBuffer := "" } :=
    lookupA_insertA_self _ _ _
  have hsp := @spawnClaude_true_eq { st with sessions := insertA st.sessions sid { entry with pty := none, outputBuffer := "" } } sid { entry with pty := none, outputBuffer := "" } hl1 120 30
  unfold restartSession
  rw [hl]
  dsimp only
  rw [hsp]
  dsimp only
  refine ⟨?_, ?_, rfl⟩
  · rw [lookupA_insertA_self]
    rfl
  · rw [lookupA_insertA_self]

/-- Witness for C6: restarting the concrete attached session preserves the
client and respawns at 120 × 30. -/
theorem restart_C6_witness :
    lookupA mgrC6.sessions "s1" =
      some { session := { id := "s1", userEmail := "u@x", repoId := "r/demo",
                          repoPath := "/r/demo", name := "Session 1",
                          state := .running, createdAt := 5, lastActivityAt := 6 },
             pty := some { ptyId := 0, cols := 80, rows := 24, cwd := "/r/demo" },
             outputBuffer := "", clients := ["c1"] } ∧
    lookupA (restartSession true "s1" mgrC6).1.sessions "s1" =
      some { session := { id := "s1", userEmail := "u@x", repoId := "r/demo",
                          repoPath := "/r/demo", name := "Session 1",
                          state := .running, createdAt := 5, lastActivityAt := 6 },
             pty := some { ptyId := 1, cols := 120, rows := 30, cwd := "/r/demo" },
             outputBuffer := "", clients := ["c1"] } :=
  ⟨by decide,
   (restart_C6 mgrC6 "s1"
     { session := { id := "s1", userEmail := "u@x", repoId := "r/demo",
                    repoPath := "/r/demo", name := "Session 1",
                    state := .running, createdAt := 5, lastActivityAt := 6 },
       pty := some { ptyId := 0, cols := 80, rows := 24, cwd := "/r/demo" },
       outputBuffer := "", clients := ["c1"] } (by decide)).2.1⟩

/-! ## C7: PTY exit does not remove the session from the index -/

/-- C7 counterexample: after the PTY of session `s1` exits, the final status
frame is delivered to the attached client, but the session is STILL in the
index: `getSession` returns it (as `exited`) and `listSessions` still lists
it.  Only an explicit `cleanupSession` (terminate or TTL reap) removes it. -/
theorem exit_C7_counterexample :
    getSession "s1" (onExitEvent "s1" 0 mgrC6) =
      some { id := "s1", userEmail := "u@x", repoId := "r/demo",
             repoPath := "/r/demo", name := "Session 1", state := .exited,
             createdAt := 5, lastActivityAt := 6, exitCode := some 0 } ∧
    (listSessions "u@x" "r/demo" (onExitEvent "s1" 0 mgrC6)).map (·.id) = ["s1"] ∧
    (onExitEvent "s1" 0 mgrC6).sent = [("c1", exitStatusMsg 0)] ∧
    getSession "s1" (cleanupSession "s1" (onExitEvent "s1" 0 mgrC6)).1 = none := by
  refine ⟨by decide, by decide, by decide, by decide⟩

/-- C7 (amended): on PTY exit the session enters `exited` with the recorded
exit code, its PTY handle is dropped, and the final status frame is sent to
every attached client; the session entry remains in the index (`getSession`
still returns it) until `cleanupSession` removes it. -/
theorem exit_C7 (st : Mgr) (sid : String) (code : Int) (entry : SessionEntry)
    (hl : lookupA st.sessions sid = some entry) :
    lookupA (onExitEvent sid code st).sessions sid =
      some { entry with
             pty := none,
             session := { entry.session with state := .exited, exitCode := some code } } ∧
    (onExitEvent sid code st).sent =
      st.sent ++ entry.clients.map (fun c => (c, exitStatusMsg code)) ∧
    getSession sid (onExitEvent sid code st) =
      some { entry.session with state := .exited, exitCode := some code } := by
  unfold onExitEvent
  rw [hl]
  dsimp only
  refine ⟨?_, rfl, ?_⟩
  · rw [lookupA_insertA_self]
  · unfold getSession
    dsimp only
    rw [lookupA_insertA_self]
    rfl

/-- Witness for C7: the concrete exit event leaves the session visible as
`exited`. -/
theorem exit_C7_witness :
    getSession "s1" (onExitEvent "s1" 7 mgrC6) =
      some { id := "s1", userEmail := "u@x", repoId := "r/demo",
             repoPath := "/r/demo", name := "Session 1", state := .exited,
             createdAt := 5, lastActivityAt := 6, exitCode := some 7 } :=
  (exit_C7 mgrC6 "s1" 7
    { session := { id := "s1", userEmail := "u@x", repoId := "r/demo",
                   repoPath := "/r/demo", name := "Session 1",
                   state := .running, createdAt := 5, lastActivityAt := 6 },
      pty := some { ptyId := 0, cols := 80, rows := 24, cwd := "/r/demo" },
      outputBuffer := "", clients := ["c1"] } (by decide)).2.2

/-! ## C9: detach is not idempotent -/

theorem insertA_self_eq {β : Type} {l : List (String × β)} {k : String} {v : β}
    (h : lookupA l k = some v) : insertA l k v = l := by
  induction l with
  | nil => simp [lookupA] at h
  | cons hd t ih =>
    obtain ⟨k1, v1⟩ := hd
    by_cases hk : k1 = k
    · subst hk
      rw [lookupA, if_pos rfl] at h
      have hv1 : v1 = v := Option.some.inj h
      subst hv1
      simp [insertA]
    · rw [lookupA, if_neg hk] at h
      simp [insertA, hk, ih h]

theorem removeClientId_not_mem {l : List String} {cid : String}
    (h : ¬ cid ∈ l) : removeClientId l cid = l := by
  induction l with
  | nil => rfl
  | cons c t ih =>
    rw [List.mem_cons] at h
    push_neg at h
    rw [removeClientId, if_neg (fun hc => h.1 hc.symm), ih h.2]

/-- The manager after creating `s1` (80 × 24) and attaching clients `c1` and
`c2`. -/
def mgrTwoClients : Mgr := (attachClient "s1" "c2" 7 mgrC6).1

/-- C9 counterexample: after the single client `c1` detaches, session `s1`
holds one armed reap timer; a second identical detach records a NEW
`disconnectedAt` and arms a SECOND reap timer without cancelling the first,
so the state after two detaches differs from the state after one. -/
theorem detach_C9_counterexample :
    ((lookupA (detachClient "s1" "c1" 100 mgrC6).sessions "s1").map
        (fun e => (e.clients, e.disconnectedAt, e.cleanupTimeout))) =
      some ([], some 100, some 0) ∧
    ((lookupA (detachClient "s1" "c1" 200 (detachClient "s1" "c1" 100 mgrC6)).sessions "s1").map
        (fun e => (e.clients, e.disconnectedAt, e.cleanupTimeout))) =
      some ([], some 200, some 1) ∧
    (detachClient "s1" "c1" 100 mgrC6).pendingTimers = [(0, "s1")] ∧
    (detachClient "s1" "c1" 200 (detachClient "s1" "c1" 100 mgrC6)).pendingTimers =
      [(0, "s1"), (1, "s1")] ∧
    detachClient "s1" "c1" 200 (detachClient "s1" "c1" 100 mgrC6) ≠
      detachClient "s1" "c1" 100 mgrC6 := by
  refine ⟨by decide, by decide, by decide, by decide, by decide⟩

/-- C9 (amended): when other clients remain attached after the detach, a
second identical detach is a no-op (idempotence holds); but when the detached
client was the last one, the second call records its own `disconnectedAt` and
arms an additional reap timer for the same session without cancelling the
first (the extra timer is harmless only because a second `cleanupSession` on
a missing session is a no-op). -/
theorem detach_C9 (st : Mgr) (sid cid : String) (t1 t2 : Nat)
    (entry : SessionEntry) (hl : lookupA st.sessions sid = some entry)
    (hnodup : ¬ cid ∈ removeClientId entry.clients cid) :
    (removeClientId entry.clients cid ≠ [] →
      detachClient sid cid t2 (detachClient sid cid t1 st) =
        detachClient sid cid t1 st) ∧
    (removeClientId entry.clients cid = [] →
      detachClient sid cid t2 (detachClient sid cid t1 st) =
        { detachClient sid cid t1 st with
          sessions := insertA (detachClient sid cid t1 st).sessions sid { entry with clients := [], disconnectedAt := some t2, cleanupTimeout := some (st.nextTimer + 1) },
          nextTimer := st.nextTimer + 2,
          pendingTimers := st.pendingTimers ++ [(st.nextTimer, sid)] ++ [(st.nextTimer + 1, sid)] }) := by
  constructor
  · intro hne
    have hd1 : detachClient sid cid t1 st =
        { st with sessions := insertA st.sessions sid { entry with clients := removeClientId entry.clients cid } } := by
      unfold detachClient
      rw [hl]
      dsimp only
      rw [if_neg (by simp [List.isEmpty_iff, hne])]
    rw [hd1]
    unfold detachClient
    rw [lookupA_insertA_self]
    dsimp only
    rw [removeClientId_not_mem hnodup]
    rw [if_neg (by simp [List.isEmpty_iff, hne])]
    rw [insertA_self_eq (lookupA_insertA_self _ _ _)]
  · intro hemp
    have hd1 : detachClient sid cid t1 st =
        { st with
          sessions := insertA st.sessions sid { entry with clients := [], disconnectedAt := some t1, cleanupTimeout := some st.nextTimer },
          nextTimer := st.nextTimer + 1,
          pendingTimers := st.pendingTimers ++ [(st.nextTimer, sid)] } := by
      unfold detachClient
      rw [hl]
      dsimp only
      rw [hemp]
      rfl
    rw [hd1]
    unfold detachClient
    rw [lookupA_insertA_self]
    dsimp only
    rfl

/-- Witness for C9: with two clients attached, detaching `c1` twice equals
detaching it once (the idempotent case of the amended claim). -/
theorem detach_C9_witness :
    removeClientId ["c1", "c2"] "c1" ≠ [] ∧
    detachClient "s1" "c1" 200 (detachClient "s1" "c1" 100 mgrTwoClients) =
      detachClient "s1" "c1" 100 mgrTwoClients :=
  ⟨by decide,
   (detach_C9 mgrTwoClients "s1" "c1" 100 200
     { session := { id := "s1", userEmail := "u@x", repoId := "r/demo",
                    repoPath := "/r/demo", name := "Session 1",
                    state := .running, createdAt := 5, lastActivityAt := 7 },
       pty := some { ptyId := 0, cols := 80, rows := 24, cwd := "/r/demo" },
       outputBuffer := "", clients := ["c1", "c2"] }
     (by decide) (by decide)).1 (by decide)⟩

/-! ## C8: WebSocket frame handling -/

/-- C8 counterexample: a `resize` frame from a client that has not attached
is silently ignored: the handler returns no frame at all, in particular no
`error` frame. -/
theorem ws_frames_C8_counterexample :
    handleWsFrame cfgDemo true "sX" 0 "u@x" "r/demo" "/r/demo" "c1"
        (some (.resize 80 24)) { currentSessionId := none } initialMgr =
      ({ currentSessionId := none }, initialMgr, []) := by
  decide

/-- C8 (amended): a malformed frame elicits exactly one `error` frame and
leaves the connection state (including the open socket) untouched; an
`input` or `restart` frame from a not-yet-attached client elicits exactly
one `error "Not attached to session"` frame; a `resize` frame from a
not-yet-attached client is silently dropped (no error frame). -/
theorem ws_frames_C8 (cfg : Config) (spawnOk : Bool) (freshSid : String)
    (now : Nat) (user repoId repoPath clientId : String) (conn : WsConn) (st : Mgr) :
    handleWsFrame cfg spawnOk freshSid now user repoId repoPath clientId
        none conn st = (conn, st, [ServerMessage.error "Invalid message format"]) ∧
    (conn.currentSessionId = none →
      (∀ data, handleWsFrame cfg spawnOk freshSid now user repoId repoPath clientId
          (some (.input data)) conn st =
        (conn, st, [ServerMessage.error "Not attached to session"])) ∧
      handleWsFrame cfg spawnOk freshSid now user repoId repoPath clientId
          (some .restart) conn st =
        (conn, st, [ServerMessage.error "Not attached to session"]) ∧
      (∀ cols rows, handleWsFrame cfg spawnOk freshSid now user repoId repoPath clientId
          (some (.resize cols rows)) conn st = (conn, st, []))) := by
  refine ⟨rfl, fun h => ⟨fun data => ?_, ?_, fun cols rows => ?_⟩⟩
  · unfold handleWsFrame
    rw [h]
  · unfold handleWsFrame
    rw [h]
  · unfold handleWsFrame
    rw [h]

/-- Witness for C8: an `input` frame on a fresh (unattached) connection gets
the not-attached error frame. -/
theorem ws_frames_C8_witness :
    WsConn.currentSessionId { currentSessionId := none } = none ∧
    handleWsFrame cfgDemo true "sW" 1 "u@x" "r/demo" "/r/demo" "c9"
        (some (.input "hi")) { currentSessionId := none } initialMgr =
      ({ currentSessionId := none }, initialMgr,
       [ServerMessage.error "Not attached to session"]) :=
  ⟨rfl,
   ((ws_frames_C8 cfgDemo true "sW" 1 "u@x" "r/demo" "/r/demo" "c9"
      { currentSessionId := none } initialMgr).2 rfl).1 "hi"⟩

/-! ## C2: session capacity -/

theorem invCapL_insert_same {cfg : Config} {l : List (String × SessionEntry)}
    {k : String} {e : SessionEntry} (h : InvCapL cfg l)
    (hl : lookupA l k = some e) (v : SessionEntry)
    (hsame : v.session.userEmail = e.session.userEmail) :
    InvCapL cfg (insertA l k v) :=
  ⟨fun u => by rw [countUser_insertA_of_lookup hl v hsame]; exact h.1 u,
   by rw [length_insertA_of_lookup hl]; exact h.2⟩

theorem invCapL_erase {cfg : Config} {l : List (String × SessionEntry)}
    (h : InvCapL cfg l) (k : String) :
    InvCapL cfg (eraseA l k) :=
  ⟨fun u => le_trans (countUser_eraseA_le l k u) (h.1 u),
   le_trans (length_eraseA_le l k) h.2⟩

theorem invCapL_insert_fresh {cfg : Config} {l : List (String × SessionEntry)}
    (k : String) (v : SessionEntry) (h : InvCapL cfg l)
    (hcap : countUser l v.session.userEmail < cfg.MAX_SESSIONS_PER_USER)
    (hlen : l.length < cfg.MAX_TOTAL_SESSIONS) :
    InvCapL cfg (insertA l k v) := by
  constructor
  · intro u
    by_cases hu : v.session.userEmail = u
    · have h1 := countUser_insertA_le l k v u
      rw [hu] at hcap
      omega
    · exact le_trans (countUser_insertA_of_neg hu l k) (h.1 u)
  · have h1 := length_insertA_le l k v
    omega

theorem invCap_spawnClaude (cfg : Config) (spawnOk : Bool) (sid : String)
    (cols rows : Nat) (st : Mgr) (h : InvCapL cfg st.sessions) :
    InvCapL cfg (spawnClaude spawnOk sid cols rows st).1.sessions := by
  unfold spawnClaude
  cases hl : lookupA st.sessions sid with
  | none => exact h
  | some entry =>
    cases spawnOk
    · dsimp only
      exact invCapL_insert_same h hl _ rfl
    · dsimp only
      exact invCapL_insert_same h hl _ rfl

theorem invCap_createSession (cfg : Config) (spawnOk : Bool) (sid : String)
    (now : Nat) (u rid rp : String) (nm : Option String) (c r : Option Nat)
    (st : Mgr) (h : InvCap cfg st) :
    InvCap cfg (createSession cfg spawnOk sid now u rid rp nm c r st).1 := by
  unfold InvCap at *
  unfold createSession
  split
  · exact h
  · split
    · exact h
    · rename_i h1 h2
      have hfresh : InvCapL cfg (createInsert sid now u rid rp nm st).sessions := by
        unfold createInsert
        dsimp only
        exact invCapL_insert_fresh sid (newEntry sid now u rid rp nm st) h
          (by show countUser st.sessions u < cfg.MAX_SESSIONS_PER_USER; omega)
          (by omega)
      have hafter := invCap_spawnClaude cfg spawnOk sid (c.getD 120) (r.getD 30)
        (createInsert sid now u rid rp nm st) hfresh
      rcases hsp : spawnClaude spawnOk sid (c.getD 120) (r.getD 30)
          (createInsert sid now u rid rp nm st) with ⟨st2, res⟩
      rw [hsp] at hafter
      cases res with
      | error e => exact hafter
      | ok uu => cases uu; exact hafter

theorem invCap_attachClient (cfg : Config) (sid cid : String) (now : Nat)
    (st : Mgr) (h : InvCap cfg st) :
    InvCap cfg (attachClient sid cid now st).1 := by
  unfold InvCap at *
  unfold attachClient
  cases hl : lookupA st.sessions sid with
  | none => exact h
  | some entry =>
    dsimp only
    cases hct : entry.cleanupTimeout <;>
      exact invCapL_insert_same h hl _ rfl

theorem invCap_detachClient (cfg : Config) (sid cid : String) (now : Nat)
    (st : Mgr) (h : InvCap cfg st) :
    InvCap cfg (detachClient sid cid now st) := by
  unfold InvCap at *
  unfold detachClient
  cases hl : lookupA st.sessions sid with
  | none => exact h
  | some entry =>
    dsimp only
    split <;> exact invCapL_insert_same h hl _ rfl

theorem invCap_sendInput (cfg : Config) (sid data : String) (now : Nat)
    (st : Mgr) (h : InvCap cfg st) :
    InvCap cfg (sendInput sid data now st).1 := by
  unfold InvCap at *
  unfold sendInput
  cases hl : lookupA st.sessions sid with
  | none => exact h
  | some entry =>
    dsimp only
    cases hp : entry.pty
    · exact h
    · exact invCapL_insert_same h hl _ rfl

theorem invCap_resizeSession (cfg : Config) (sid : String) (cols rows : Nat)
    (st : Mgr) (h : InvCap cfg st) :
    InvCap cfg (resizeSession sid cols rows st).1 := by
  unfold InvCap at *
  unfold resizeSession
  cases hl : lookupA st.sessions sid with
  | none => exact h
  | some entry =>
    dsimp only
    cases hp : entry.pty
    · exact h
    · exact invCapL_insert_same h hl _ rfl

theorem invCap_renameSession (cfg : Config) (sid n : String) (st : Mgr)
    (h : InvCap cfg st) :
    InvCap cfg (renameSession sid n st).1 := by
  unfold InvCap at *
  unfold renameSession
  cases hl : lookupA st.sessions sid with
  | none => exact h
  | some entry => exact invCapL_insert_same h hl _ rfl

theorem invCap_onDataEvent (cfg : Config) (sid data : String) (now : Nat)
    (st : Mgr) (h : InvCap cfg st) :
    InvCap cfg (onDataEvent sid data now st) := by
  unfold InvCap at *
  unfold onDataEvent
  cases hl : lookupA st.sessions sid with
  | none => exact h
  | some entry => exact invCapL_insert_same h hl _ rfl

theorem invCap_onExitEvent (cfg : Config) (sid : String) (code : Int)
    (st : Mgr) (h : InvCap cfg st) :
    InvCap cfg (onExitEvent sid code st) := by
  unfold InvCap at *
  unfold onExitEvent
  cases hl : lookupA st.sessions sid with
  | none => exact h
  | some entry => exact invCapL_insert_same h hl _ rfl

theorem invCap_cleanupSession (cfg : Config) (sid : String) (st : Mgr)
    (h : InvCap cfg st) :
    InvCap cfg (cleanupSession sid st).1 := by
  unfold InvCap at *
  unfold cleanupSession
  cases hl : lookupA st.sessions sid with
  | none => exact h
  | some entry =>
    dsimp only
    cases hct : entry.cleanupTimeout <;> dsimp only <;>
      exact invCapL_erase h sid


theorem invCap_restartSession (cfg : Config) (spawnOk : Bool) (sid : String)
    (st : Mgr) (h : InvCap cfg st) :
    InvCap cfg (restartSession spawnOk sid st).1 := by
  unfold InvCap at *
  unfold restartSession
  cases hl : lookupA st.sessions sid with
  | none => exact h
  | some entry =>
    dsimp only
    have hmid : InvCapL cfg (insertA st.sessions sid { entry with pty := none, outputBuffer := "" }) :=
      invCapL_insert_same h hl _ rfl
    have hafter := invCap_spawnClaude cfg spawnOk sid 120 30
      { st with sessions := insertA st.sessions sid { entry with pty := none, outputBuffer := "" } } hmid
    rcases hsp : spawnClaude spawnOk sid 120 30
        { st with sessions := insertA st.sessions sid { entry with pty := none, outputBuffer := "" } }
      with ⟨st2, res⟩
    rw [hsp] at hafter
    cases res with
    | error e => exact hafter
    | ok uu => cases uu; exact hafter

theorem invCap_timerFire (cfg : Config) (tid : Nat) (st : Mgr)
    (h : InvCap cfg st) :
    InvCap cfg (timerFire tid st) := by
  unfold timerFire
  cases hf : st.pendingTimers.find? (fun p => p.1 = tid) with
  | none => exact h
  | some p =>
    exact invCap_cleanupSession cfg p.2
      { st with pendingTimers := st.pendingTimers.filter fun q => q.1 ≠ tid } h

theorem invCap_sweep (cfg : Config) (now : Nat) (st : Mgr) (h : InvCap cfg st) :
    InvCap cfg (cleanupExpiredSessions cfg now st) := by
  unfold cleanupExpiredSessions
  generalize st.sessions.map (fun x => x.1) = ids
  induction ids generalizing st with
  | nil => exact h
  | cons sid rest ih =>
    rw [List.foldl_cons]
    apply ih
    dsimp only
    cases hl : lookupA st.sessions sid with
    | none => exact h
    | some e =>
      dsimp only
      cases hd : e.disconnectedAt with
      | none => exact h
      | some t =>
        dsimp only
        split
        · exact invCap_cleanupSession cfg sid st h
        · exact h

theorem invCap_stepMgr (cfg : Config) (op : MgrOp) (st : Mgr)
    (h : InvCap cfg st) : InvCap cfg (stepMgr cfg op st) := by
  cases op with
  | create spawnOk sid now u rid rp nm c r =>
    exact invCap_createSession cfg spawnOk sid now u rid rp nm c r st h
  | attach sid cid now => exact invCap_attachClient cfg sid cid now st h
  | detach sid cid now => exact invCap_detachClient cfg sid cid now st h
  | inputOp sid data now => exact invCap_sendInput cfg sid data now st h
  | resizeOp sid c r => exact invCap_resizeSession cfg sid c r st h
  | renameOp sid n => exact invCap_renameSession cfg sid n st h
  | restartOp spawnOk sid => exact invCap_restartSession cfg spawnOk sid st h
  | terminateOp sid => exact invCap_cleanupSession cfg sid st h
  | dataEvent sid data now => exact invCap_onDataEvent cfg sid data now st h
  | exitEvent sid code => exact invCap_onExitEvent cfg sid code st h
  | timerOp tid => exact invCap_timerFire cfg tid st h
  | sweepOp now => exact invCap_sweep cfg now st h

theorem invCap_initial (cfg : Config) : InvCap cfg initialMgr :=
  ⟨fun u => Nat.zero_le _, Nat.zero_le _⟩

theorem invCap_runMgr (cfg : Config) (ops : List MgrOp) :
    InvCap cfg (runMgr cfg ops) := by
  unfold runMgr
  have haux : ∀ (l : List MgrOp) (st : Mgr), InvCap cfg st →
      InvCap cfg (l.foldl (fun st op => stepMgr cfg op st) st) := by
    intro l
    induction l with
    | nil => intro st h; exact h
    | cons op rest ih =>
      intro st h
      rw [List.foldl_cons]
      exact ih _ (invCap_stepMgr cfg op st h)
  exact haux ops initialMgr (invCap_initial cfg)

theorem isPrefixOf_append_self (a b : List Char) : a.isPrefixOf (a ++ b) = true := by
  induction a with
  | nil => simp [List.isPrefixOf]
  | cons c t ih => simp [List.isPrefixOf, ih]

theorem containsSubL_of_isPrefixOf {l sub : List Char}
    (h : sub.isPrefixOf l = true) : containsSubL l sub = true := by
  cases l with
  | nil =>
    cases sub with
    | nil => rfl
    | cons c t => simp [List.isPrefixOf] at h
  | cons x t =>
    unfold containsSubL
    rw [h]
    rfl

theorem perUserMsg_contains (cfg : Config) :
    containsSubstr (perUserLimitMsg cfg) "Maximum sessions per user reached" = true := by
  unfold containsSubstr perUserLimitMsg
  apply containsSubL_of_isPrefixOf
  have h1 : ("Maximum sessions per user reached (" ++
        toString cfg.MAX_SESSIONS_PER_USER ++ ")").data =
      ("Maximum sessions per user reached" : String).data ++
        ((" (" : String).data ++ (toString cfg.MAX_SESSIONS_PER_USER).data ++
          (")" : String).data) := by
    rw [String.data_append, String.data_append]
    have h2 : ("Maximum sessions per user reached (" : String).data =
        ("Maximum sessions per user reached" : String).data ++ (" (" : String).data := by
      decide
    rw [h2]
    simp [List.append_assoc]
  rw [h1]
  exact isPrefixOf_append_self _ _

theorem createSession_perUser_breach (cfg : Config) (spawnOk : Bool)
    (sid : String) (now : Nat) (u rid rp : String) (nm : Option String)
    (c r : Option Nat) (st : Mgr)
    (h : cfg.MAX_SESSIONS_PER_USER ≤ countUser st.sessions u) :
    createSession cfg spawnOk sid now u rid rp nm c r st =
      (st, .error (perUserLimitMsg cfg)) := by
  unfold createSession
  rw [if_pos h]

theorem createSession_capacity_breach (cfg : Config) (spawnOk : Bool)
    (sid : String) (now : Nat) (u rid rp : String) (nm : Option String)
    (c r : Option Nat) (st : Mgr)
    (h1 : countUser st.sessions u < cfg.MAX_SESSIONS_PER_USER)
    (h2 : cfg.MAX_TOTAL_SESSIONS ≤ st.sessions.length) :
    createSession cfg spawnOk sid now u rid rp nm c r st =
      (st, .error capacityMsg) := by
  unfold createSession
  rw [if_neg (by omega), if_pos h2]

/-- C2: (i) along every sequence of manager operations from the fresh
manager, every user owns at most `MAX_SESSIONS_PER_USER` sessions and the
total stays at most `MAX_TOTAL_SESSIONS`; (ii) `createSession` invoked with
the per-user cap already reached throws the per-user message and leaves the
state untouched (so no entry is created and no PTY spawned); (iii) likewise
for the global cap with the capacity message; (iv) the HTTP handler maps the
per-user breach to `429 MAX_SESSIONS_PER_USER`; (v) and the global breach to
`503 SERVER_MAX_CAPACITY`. -/
theorem session_capacity_C2 :
    (∀ cfg ops, InvCap cfg (runMgr cfg ops)) ∧
    (∀ cfg spawnOk sid now u rid rp nm c r st,
      cfg.MAX_SESSIONS_PER_USER ≤ countUser st.sessions u →
      createSession cfg spawnOk sid now u rid rp nm c r st =
        (st, .error (perUserLimitMsg cfg))) ∧
    (∀ cfg spawnOk sid now u rid rp nm c r st,
      countUser st.sessions u < cfg.MAX_SESSIONS_PER_USER →
      cfg.MAX_TOTAL_SESSIONS ≤ st.sessions.length →
      createSession cfg spawnOk sid now u rid rp nm c r st =
        (st, .error capacityMsg)) ∧
    (∀ cfg, postSessionsOutcome (.error (perUserLimitMsg cfg)) =
      .limited 429 "MAX_SESSIONS_PER_USER") ∧
    postSessionsOutcome (.error capacityMsg) =
      .limited 503 "SERVER_MAX_CAPACITY" := by
  refine ⟨invCap_runMgr, createSession_perUser_breach,
          createSession_capacity_breach, fun cfg => ?_, by decide⟩
  unfold postSessionsOutcome
  dsimp only
  rw [if_pos (perUserMsg_contains cfg)]

/-- Witness for C2: with a per-user cap of zero, creating a session for any
user is refused with the untouched state, and the outcome maps to 429; the
invariant also holds for a concrete run. -/
theorem session_capacity_C2_witness :
    InvCap cfgDemo (runMgr cfgDemo
      [.create true "s1" 5 "u@x" "r/demo" "/r/demo" none none none,
       .attach "s1" "c1" 6 , .detach "s1" "c1" 7]) ∧
    (Config.MAX_SESSIONS_PER_USER
        { MAX_SESSIONS_PER_USER := 0, MAX_TOTAL_SESSIONS := 20,
          DISCONNECTED_TTL_MINUTES := 20 } ≤ countUser initialMgr.sessions "u@x") ∧
    createSession
        { MAX_SESSIONS_PER_USER := 0, MAX_TOTAL_SESSIONS := 20,
          DISCONNECTED_TTL_MINUTES := 20 }
        true "s1" 5 "u@x" "r/demo" "/r/demo" none none none initialMgr =
      (initialMgr, .error (perUserLimitMsg
        { MAX_SESSIONS_PER_USER := 0, MAX_TOTAL_SESSIONS := 20,
          DISCONNECTED_TTL_MINUTES := 20 })) :=
  ⟨session_capacity_C2.1 cfgDemo _,
   by decide,
   session_capacity_C2.2.1
     { MAX_SESSIONS_PER_USER := 0, MAX_TOTAL_SESSIONS := 20,
       DISCONNECTED_TTL_MINUTES := 20 }
     true "s1" 5 "u@x" "r/demo" "/r/demo" none none none initialMgr (by decide)⟩
